import Mathlib

/-!
# Event significance engine: formalization

A shallow embedding of the event significance / surfacing engine of the
drone-simulation repository (`initSpecialCaseEngine` / `decideSpecialCase`
in `src/components/extra.tsx`), together with theorems settling the
specification's claims about it.

Embedding conventions:

* JavaScript numbers (scores, coordinates, timestamps) are modelled as
  exact rationals `ℚ`; the concrete constants appearing in the claims are
  far from any binary floating-point rounding boundary, so the rational
  model agrees with IEEE double evaluation on every comparison performed.
* The Turf.js geometry library (an external dependency, not part of this
  repository) is abstracted as a `GeoLib` parameter carrying the
  point-in-polygon test (`turf.booleanPointInPolygon`) and the great-circle
  distance in meters (`turf.distance`).  Theorems assume only the
  elementary geometric facts a scenario needs (for instance that the
  distance from a point to itself is `0`); concrete witnesses instantiate
  `GeoLib` with axis-aligned rectangles and a planar distance that
  satisfies those facts on the configurations used.
* The JavaScript `Record` used for `lastByCell` is modelled as a function
  `CellKey → Option CellInfo` updated pointwise, and the in-place mutation
  of the engine state is modelled by returning the new state alongside the
  decision (`Decision × EngineState`).
* `Math.round` (round half toward positive infinity) is modelled by
  `jsRound`, and `String.prototype.toLowerCase` by `lowerString`
  (character-wise ASCII lowering; every label the engine recognizes is
  ASCII).
-/

namespace DroneSim

/-- `Coord` from `extra.tsx`: a `[lng, lat]` pair in WGS84 degrees. -/
abbrev Coord := ℚ × ℚ

/-- `EventInput` from `extra.tsx`: one detection event. -/
structure EventInput where
  label : String
  score : ℚ
  coord : Coord
  ts : ℚ
  deriving DecidableEq

/-- `Decision` from `extra.tsx`:
`'ignore' | 'record' | 'surface' | 'auto-dispatch'`. -/
inductive Decision where
  | ignore
  | record
  | surface
  | autoDispatch
  deriving DecidableEq

/-- An entry of the engine's `recent` buffer: `{label, coord, ts}`. -/
structure RecentEntry where
  label : String
  coord : Coord
  ts : ℚ
  deriving DecidableEq

/-- A value of the `lastByCell` record: `{count, lastTs}`. -/
structure CellInfo where
  count : ℕ
  lastTs : ℚ
  deriving DecidableEq

/-- The key produced by `cellKey`: the template string
`` `${label}:${x}:${y}` `` is injective in `(label, x, y)` (the two
numeric components contain no `:`), so we model it as the tuple. -/
abbrev CellKey := String × ℤ × ℤ

/-- `EngineState` from `extra.tsx`. -/
structure EngineState where
  lastByCell : CellKey → Option CellInfo
  recent : List RecentEntry

/-- The Turf.js primitives the engine uses, abstracted: `pointInPolygon`
models `turf.booleanPointInPolygon`, `distMeters` models
`turf.distance(·, ·, { units: 'meters' })`. -/
structure GeoLib (Poly : Type) where
  pointInPolygon : Coord → Poly → Bool
  distMeters : Coord → Coord → ℚ

/-- `SpecialCaseContext` from `extra.tsx`: `aois?` is the optional feature
collection (its list of polygon features), `assets?` the optional list of
critical-asset coordinates. -/
structure SpecialCaseContext (Poly : Type) where
  aois : Option (List Poly)
  assets : Option (List Coord)

/-- `String.prototype.toLowerCase`, restricted to ASCII: lower each
character.  (All labels the engine recognizes are ASCII.) -/
def lowerString (s : String) : String :=
  ⟨s.data.map Char.toLower⟩

/-- `const CELL_DEG = 0.00035; // ~35m` -/
def CELL_DEG : ℚ := 0.00035

/-- JavaScript `Math.round`: round half toward positive infinity. -/
def jsRound (q : ℚ) : ℤ := ⌊q + 1 / 2⌋

/-- `cellKey` from `extra.tsx`:
`` `${label}:${Math.round(lng / CELL_DEG)}:${Math.round(lat / CELL_DEG)}` ``. -/
def cellKey (label : String) (c : Coord) : CellKey :=
  (label, jsRound (c.1 / CELL_DEG), jsRound (c.2 / CELL_DEG))

/-- The `fire` row of the `THR` table. -/
structure FireThr where
  conf : ℚ
  autoConf : ℚ
  persistTicks : ℕ

/-- The `person` and `people` rows of the `THR` table. -/
structure PersonThr where
  conf : ℚ
  persistTicksAOI : ℕ
  clusterCount : ℕ
  clusterMeters : ℚ
  clusterWindowMs : ℚ

/-- The `chemical` row of the `THR` table. -/
structure ChemicalThr where
  conf : ℚ

/-- `THR.fire = { conf: 0.88, autoConf: 0.95, persistTicks: 2 }`. -/
def THR_fire : FireThr := ⟨0.88, 0.95, 2⟩

/-- `THR.person` from `extra.tsx`. -/
def THR_person : PersonThr := ⟨0.9, 3, 3, 100, 30000⟩

/-- `THR.people` from `extra.tsx` (same values as `THR.person`). -/
def THR_people : PersonThr := ⟨0.9, 3, 3, 100, 30000⟩

/-- `THR.chemical = { conf: 0.85 }`. -/
def THR_chemical : ChemicalThr := ⟨0.85⟩

/-- `const NEAR_ASSET_METERS = 60;` -/
def NEAR_ASSET_METERS : ℚ := 60

/-- `const PERSIST_MAX_GAP_MS = 12_000;` -/
def PERSIST_MAX_GAP_MS : ℚ := 12000

/-- The dynamic `(THR as any)[label]` lookup inside the cluster check: only
the `person` and `people` rows carry a `clusterCount`, so the lookup is
`none` for every other label (making `clusterHit` false there). -/
def thrCluster (label : String) : Option PersonThr :=
  if label = "person" then some THR_person
  else if label = "people" then some THR_people
  else none

/-- `initSpecialCaseEngine`: `{ lastByCell: {}, recent: [] }`. -/
def initSpecialCaseEngine : EngineState :=
  { lastByCell := fun _ => none, recent := [] }

/-- The recent-buffer maintenance of `decideSpecialCase`:
`st.recent.push({label, coord, ts})` followed by
`st.recent = st.recent.filter((r) => r.ts >= cutoff)` with
`cutoff = t - 60_000`. -/
def pushRecent (recent : List RecentEntry) (label : String) (c : Coord) (t : ℚ) :
    List RecentEntry :=
  (recent ++ [(⟨label, c, t⟩ : RecentEntry)]).filter fun r => decide (t - 60000 ≤ r.ts)

/-- The per-cell persistence update of `decideSpecialCase`: reset the count
to 1 when the cell is absent or `t - prev.lastTs > PERSIST_MAX_GAP_MS`,
otherwise increment it; the stored timestamp becomes `t` either way. -/
def updateCell (prev : Option CellInfo) (t : ℚ) : CellInfo :=
  match prev with
  | none => ⟨1, t⟩
  | some p => if PERSIST_MAX_GAP_MS < t - p.lastTs then ⟨1, t⟩ else ⟨p.count + 1, t⟩

/-- The `insideAOI` signal: false when `ctx.aois` is absent, else true iff
some feature polygon contains the event coordinate. -/
def insideAOISig {Poly : Type} (G : GeoLib Poly) (ctx : SpecialCaseContext Poly)
    (c : Coord) : Bool :=
  match ctx.aois with
  | none => false
  | some fs => fs.any fun p => G.pointInPolygon c p

/-- The `nearAsset` signal: false when `ctx.assets` is absent or empty,
else true iff some asset is within `NEAR_ASSET_METERS` of the event
coordinate. -/
def nearAssetSig {Poly : Type} (G : GeoLib Poly) (ctx : SpecialCaseContext Poly)
    (c : Coord) : Bool :=
  match ctx.assets with
  | none => false
  | some l =>
      if l.isEmpty then false
      else l.any fun a => decide (G.distMeters c a ≤ NEAR_ASSET_METERS)

/-- The `clusterHit` signal, computed over the already-updated recent
buffer: for a label with a `clusterCount` row, count the recent same-label
entries at most `clusterWindowMs` old and within `clusterMeters` of the
event coordinate (the loop skips `r.ts < since`, i.e. keeps
`since ≤ r.ts`); the signal is true when the count reaches
`clusterCount`.  The current event was pushed first, so it counts
itself. -/
def clusterHitSig {Poly : Type} (G : GeoLib Poly) (recent : List RecentEntry)
    (label : String) (c : Coord) (t : ℚ) : Bool :=
  match thrCluster label with
  | none => false
  | some thr =>
      let since := t - thr.clusterWindowMs
      let hits := recent.filter fun r =>
        decide (r.label = label) && decide (since ≤ r.ts) &&
          decide (G.distMeters c r.coord ≤ thr.clusterMeters)
      decide (thr.clusterCount ≤ hits.length)

/-- The rule cascade of `decideSpecialCase` (the sequence of early-return
`if` statements after the signals are computed).  The source's person rule
is `if (person/people && conf) { if (insideAOI) {...return} }` with no
else, so a confident person event outside every AOI falls through to the
later rules exactly as the flattened condition here does. -/
def applyRules (label : String) (score : ℚ) (persistCount : ℕ)
    (insideAOI nearAsset clusterHit : Bool) : Decision :=
  if label = "fire" ∧ THR_fire.conf ≤ score then
    if THR_fire.persistTicks ≤ persistCount then
      if THR_fire.autoConf ≤ score ∨ insideAOI = true then Decision.autoDispatch
      else Decision.surface
    else Decision.record
  else if (label = "person" ∨ label = "people") ∧ THR_person.conf ≤ score ∧
      insideAOI = true then
    if THR_person.persistTicksAOI ≤ persistCount ∨ clusterHit = true then
      Decision.surface
    else Decision.record
  else if label = "chemical" ∧ THR_chemical.conf ≤ score then
    if insideAOI = true ∨ nearAsset = true then Decision.surface
    else Decision.record
  else if (nearAsset = true ∧ (label = "person" ∨ label = "people" ∨ label = "fire")) ∧
      ((label = "fire" ∧ (0.85 : ℚ) ≤ score) ∨
        ((label = "person" ∨ label = "people") ∧ (0.92 : ℚ) ≤ score)) then
    Decision.surface
  else Decision.record

/-- `decideSpecialCase` from `extra.tsx`.  The source mutates `st` in
place and returns the decision; the embedding returns the decision paired
with the updated state.  Steps, in source order: lower-case the label,
push the event onto the recent buffer and prune it to the trailing 60
seconds, update the persistence cell, compute the three signals, then run
the rule cascade. -/
def decideSpecialCase {Poly : Type} (G : GeoLib Poly) (st : EngineState)
    (ev : EventInput) (ctx : SpecialCaseContext Poly) : Decision × EngineState :=
  let label := lowerString ev.label
  let t := ev.ts
  let recent := pushRecent st.recent label ev.coord t
  let key := cellKey label ev.coord
  let updated := updateCell (st.lastByCell key) t
  let lastByCell : CellKey → Option CellInfo :=
    fun k => if k = key then some updated else st.lastByCell k
  let insideAOI := insideAOISig G ctx ev.coord
  let nearAsset := nearAssetSig G ctx ev.coord
  let clusterHit := clusterHitSig G recent label ev.coord t
  (applyRules label ev.score updated.count insideAOI nearAsset clusterHit,
    { lastByCell := lastByCell, recent := recent })

/-- The spec's urgency ordering on decisions:
`auto-dispatch > surface > record > ignore`. -/
def urgency : Decision → ℕ
  | Decision.ignore => 0
  | Decision.record => 1
  | Decision.surface => 2
  | Decision.autoDispatch => 3

/-- Axis-aligned rectangle in degree coordinates: the concrete polygon
type used to instantiate `GeoLib` in witnesses. -/
structure RectPoly where
  lo : Coord
  hi : Coord

/-- Point-in-rectangle test: on axis-aligned rectangles (away from the
boundary) this agrees with `turf.booleanPointInPolygon`. -/
def rectContains (c : Coord) (r : RectPoly) : Bool :=
  decide (r.lo.1 ≤ c.1 ∧ c.1 ≤ r.hi.1 ∧ r.lo.2 ≤ c.2 ∧ c.2 ≤ r.hi.2)

/-- A planar taxicab distance in meters (`111320` meters per degree), used
only to instantiate `GeoLib` in witnesses; it satisfies the facts the
parametric theorems assume of the distance on the configurations used
(zero at equal points, and the sub-100-meter separations of the cluster
witness). -/
def l1DistMeters (a b : Coord) : ℚ :=
  111320 * (|a.1 - b.1| + |a.2 - b.2|)

/-- The concrete `GeoLib` instantiation for witnesses. -/
def flatGeo : GeoLib RectPoly :=
  { pointInPolygon := rectContains, distMeters := l1DistMeters }

/-- The confidence threshold of each label the `THR` table recognizes
(`none` for a label with no row), used to state the below-threshold
claim. -/
def confOf (label : String) : Option ℚ :=
  if label = "fire" then some THR_fire.conf
  else if label = "person" ∨ label = "people" then some THR_person.conf
  else if label = "chemical" then some THR_chemical.conf
  else none

/-! ## Helper lemmas -/

theorem lowerString_fire : lowerString "fire" = "fire" := rfl

theorem lowerString_person : lowerString "person" = "person" := rfl

theorem lowerString_chemical : lowerString "chemical" = "chemical" := rfl

theorem updateCell_none (t : ℚ) : updateCell none t = ⟨1, t⟩ := rfl

theorem updateCell_some (p : CellInfo) (t : ℚ) :
    updateCell (some p) t =
      if PERSIST_MAX_GAP_MS < t - p.lastTs then ⟨1, t⟩ else ⟨p.count + 1, t⟩ := rfl

theorem decideSpecialCase_fst {Poly : Type} (G : GeoLib Poly) (st : EngineState)
    (ev : EventInput) (ctx : SpecialCaseContext Poly) :
    (decideSpecialCase G st ev ctx).1 =
      applyRules (lowerString ev.label) ev.score
        (updateCell (st.lastByCell (cellKey (lowerString ev.label) ev.coord)) ev.ts).count
        (insideAOISig G ctx ev.coord) (nearAssetSig G ctx ev.coord)
        (clusterHitSig G (pushRecent st.recent (lowerString ev.label) ev.coord ev.ts)
          (lowerString ev.label) ev.coord ev.ts) := rfl

theorem decideSpecialCase_recent {Poly : Type} (G : GeoLib Poly) (st : EngineState)
    (ev : EventInput) (ctx : SpecialCaseContext Poly) :
    (decideSpecialCase G st ev ctx).2.recent =
      pushRecent st.recent (lowerString ev.label) ev.coord ev.ts := rfl

theorem decideSpecialCase_lastByCell {Poly : Type} (G : GeoLib Poly) (st : EngineState)
    (ev : EventInput) (ctx : SpecialCaseContext Poly) :
    (decideSpecialCase G st ev ctx).2.lastByCell =
      fun k => if k = cellKey (lowerString ev.label) ev.coord then
          some (updateCell (st.lastByCell (cellKey (lowerString ev.label) ev.coord)) ev.ts)
        else st.lastByCell k := rfl

theorem updateCell_lastTs (o : Option CellInfo) (t : ℚ) : (updateCell o t).lastTs = t := by
  cases o with
  | none => rfl
  | some p =>
      rw [updateCell_some]
      split <;> rfl

theorem applyRules_fire_mono (s1 s2 : ℚ) (pc : ℕ) (a ch : Bool) (hs : s1 ≤ s2) :
    urgency (applyRules "fire" s1 pc a false ch) ≤
      urgency (applyRules "fire" s2 pc a false ch) := by
  cases a <;>
    simp [applyRules, THR_fire] <;>
    split_ifs <;>
    norm_num [urgency] <;>
    linarith

theorem applyRules_mem (label : String) (score : ℚ) (pc : ℕ) (a na ch : Bool) :
    applyRules label score pc a na ch = Decision.record ∨
    applyRules label score pc a na ch = Decision.surface ∨
    applyRules label score pc a na ch = Decision.autoDispatch := by
  unfold applyRules
  split_ifs <;> simp

theorem insideAOISig_eq_false {Poly : Type} (G : GeoLib Poly)
    (ctx : SpecialCaseContext Poly) (c : Coord)
    (h : ∀ fs, ctx.aois = some fs → ∀ p ∈ fs, G.pointInPolygon c p = false) :
    insideAOISig G ctx c = false := by
  unfold insideAOISig
  cases haois : ctx.aois with
  | none => rfl
  | some fs =>
      rw [List.any_eq_false]
      intro p hp
      simp [h fs haois p hp]

theorem nearAssetSig_eq_false {Poly : Type} (G : GeoLib Poly)
    (ctx : SpecialCaseContext Poly) (c : Coord)
    (h : ∀ l, ctx.assets = some l → ∀ a ∈ l, ¬ G.distMeters c a ≤ NEAR_ASSET_METERS) :
    nearAssetSig G ctx c = false := by
  cases has : ctx.assets with
  | none => simp [nearAssetSig, has]
  | some l =>
      by_cases hemp : l.isEmpty
      · simp [nearAssetSig, has, hemp]
      · simp only [nearAssetSig, has]
        rw [if_neg (by simp [hemp]), List.any_eq_false]
        intro a ha
        simp [h l has a ha]

/-! ## Claim theorems -/

/-- C3: fire escalation scenario.  On a fresh engine with empty context,
an event `{label:"fire", score:0.96, coord:(11.50,48.71), ts:1000}` yields
`record` with the cell's persistence count at 1, and the identical event
at `ts:5000` (same cell, 4000 ms gap, below the 12000 ms persistence gap)
yields `auto-dispatch` with the count at 2 (and score `0.96 ≥ 0.95`). -/
theorem fire_escalation_scenario (Poly : Type) (G : GeoLib Poly) :
    (decideSpecialCase G initSpecialCaseEngine ⟨"fire", 0.96, (11.50, 48.71), 1000⟩
        ⟨none, none⟩).1 = Decision.record ∧
    (decideSpecialCase G initSpecialCaseEngine ⟨"fire", 0.96, (11.50, 48.71), 1000⟩
        ⟨none, none⟩).2.lastByCell (cellKey "fire" (11.50, 48.71)) = some ⟨1, 1000⟩ ∧
    (decideSpecialCase G
        (decideSpecialCase G initSpecialCaseEngine ⟨"fire", 0.96, (11.50, 48.71), 1000⟩
          ⟨none, none⟩).2
        ⟨"fire", 0.96, (11.50, 48.71), 5000⟩ ⟨none, none⟩).1 = Decision.autoDispatch ∧
    (decideSpecialCase G
        (decideSpecialCase G initSpecialCaseEngine ⟨"fire", 0.96, (11.50, 48.71), 1000⟩
          ⟨none, none⟩).2
        ⟨"fire", 0.96, (11.50, 48.71), 5000⟩ ⟨none, none⟩).2.lastByCell
      (cellKey "fire" (11.50, 48.71)) = some ⟨2, 5000⟩ := by
  refine ⟨?_, ?_, ?_, ?_⟩ <;>
    norm_num [decideSpecialCase, initSpecialCaseEngine, insideAOISig, nearAssetSig,
      clusterHitSig, thrCluster, updateCell_none, updateCell_some, applyRules,
      THR_fire, lowerString_fire, PERSIST_MAX_GAP_MS]

/-- C7: chemical near asset.  On a fresh engine with `criticalAssets`
holding exactly the event coordinate and no AOIs, a
`{label:"chemical", score:0.86, ts:0}` event at the asset coordinate is
surfaced on the very first call: `nearAsset` is true (distance 0 ≤ 60
meters) and the chemical rule has no persistence requirement. -/
theorem chemical_near_asset_surface (Poly : Type) (G : GeoLib Poly) (a : Coord)
    (hself : G.distMeters a a = 0) :
    (decideSpecialCase G initSpecialCaseEngine ⟨"chemical", 0.86, a, 0⟩
        ⟨none, some [a]⟩).1 = Decision.surface := by
  norm_num [decideSpecialCase, initSpecialCaseEngine, insideAOISig, nearAssetSig,
    clusterHitSig, thrCluster, updateCell_none, applyRules, THR_fire, THR_person,
    THR_chemical, lowerString_chemical, NEAR_ASSET_METERS, hself]

/-- Witness for C7 at an explicit asset coordinate. -/
theorem chemical_near_asset_surface_witness :
    (decideSpecialCase flatGeo initSpecialCaseEngine ⟨"chemical", 0.86, (11.5, 48.71), 0⟩
        ⟨none, some [(11.5, 48.71)]⟩).1 = Decision.surface :=
  chemical_near_asset_surface RectPoly flatGeo (11.5, 48.71)
    (by norm_num [flatGeo, l1DistMeters])

/-- C4: persistence accumulation and reset.  From a fresh engine with
empty context, fire events with score 0.90 at one coordinate: the first
(at any time `t0`) yields `record`; a second 1000 ms later yields
`surface` (count 2, `0.90 < 0.95`, no AOI); but a second event at least
12001 ms later yields `record` again, the cell count having been reset to
1 by the `timestamp - lastTimestamp > 12000` check. -/
theorem persistence_accumulation_reset (Poly : Type) (G : GeoLib Poly)
    (c : Coord) (t0 g : ℚ) (hg : 12001 ≤ g) :
    (decideSpecialCase G initSpecialCaseEngine ⟨"fire", 0.90, c, t0⟩
        ⟨none, none⟩).1 = Decision.record ∧
    (decideSpecialCase G
        (decideSpecialCase G initSpecialCaseEngine ⟨"fire", 0.90, c, t0⟩ ⟨none, none⟩).2
        ⟨"fire", 0.90, c, t0 + 1000⟩ ⟨none, none⟩).1 = Decision.surface ∧
    (decideSpecialCase G
        (decideSpecialCase G initSpecialCaseEngine ⟨"fire", 0.90, c, t0⟩ ⟨none, none⟩).2
        ⟨"fire", 0.90, c, t0 + g⟩ ⟨none, none⟩).1 = Decision.record := by
  have hg1 : (12000 : ℚ) < g := by linarith
  refine ⟨?_, ?_, ?_⟩ <;>
    norm_num [decideSpecialCase, initSpecialCaseEngine, insideAOISig, nearAssetSig,
      clusterHitSig, thrCluster, updateCell_none, updateCell_some, applyRules,
      THR_fire, lowerString_fire, PERSIST_MAX_GAP_MS, hg1]

/-- Witness for C4 at an explicit coordinate, start time 0 and a
12001 ms gap. -/
theorem persistence_accumulation_reset_witness :
    (decideSpecialCase flatGeo initSpecialCaseEngine ⟨"fire", 0.90, (11.5, 48.71), 0⟩
        ⟨none, none⟩).1 = Decision.record ∧
    (decideSpecialCase flatGeo
        (decideSpecialCase flatGeo initSpecialCaseEngine ⟨"fire", 0.90, (11.5, 48.71), 0⟩
          ⟨none, none⟩).2
        ⟨"fire", 0.90, (11.5, 48.71), 0 + 1000⟩ ⟨none, none⟩).1 = Decision.surface ∧
    (decideSpecialCase flatGeo
        (decideSpecialCase flatGeo initSpecialCaseEngine ⟨"fire", 0.90, (11.5, 48.71), 0⟩
          ⟨none, none⟩).2
        ⟨"fire", 0.90, (11.5, 48.71), 0 + 12001⟩ ⟨none, none⟩).1 = Decision.record :=
  persistence_accumulation_reset RectPoly flatGeo (11.5, 48.71) 0 12001 (by norm_num)

/-- C5: AOI gating for person events.  For every engine state — hence
regardless of any persistence accumulated for the event's cell — a
"person" event with score 0.95 whose coordinate lies in no configured AOI
polygon and within 60 meters of no critical asset is merely recorded:
`decideSpecialCase` returns `record`, never `surface` or
`auto-dispatch`. -/
theorem person_aoi_gating (Poly : Type) (G : GeoLib Poly) (st : EngineState)
    (ctx : SpecialCaseContext Poly) (c : Coord) (t : ℚ)
    (haoi : ∀ fs, ctx.aois = some fs → ∀ p ∈ fs, G.pointInPolygon c p = false)
    (hasset : ∀ l, ctx.assets = some l → ∀ a ∈ l, ¬ G.distMeters c a ≤ NEAR_ASSET_METERS) :
    (decideSpecialCase G st ⟨"person", 0.95, c, t⟩ ctx).1 = Decision.record := by
  have h1 := insideAOISig_eq_false G ctx c haoi
  have h2 := nearAssetSig_eq_false G ctx c hasset
  rw [decideSpecialCase_fst]
  norm_num [applyRules, lowerString_person, h1, h2, THR_fire, THR_person, THR_chemical]
  simp

/-- Witness for C5: a state with accumulated history, one AOI rectangle
away from the event, one asset 111 km away. -/
theorem person_aoi_gating_witness :
    (decideSpecialCase flatGeo
        (decideSpecialCase flatGeo initSpecialCaseEngine ⟨"person", 0.95, (0, 0), 0⟩
          ⟨some [⟨(10, 10), (11, 11)⟩], some [(1, 0)]⟩).2
        ⟨"person", 0.95, (0, 0), 1000⟩
        ⟨some [⟨(10, 10), (11, 11)⟩], some [(1, 0)]⟩).1 = Decision.record :=
  person_aoi_gating RectPoly flatGeo
    (decideSpecialCase flatGeo initSpecialCaseEngine ⟨"person", 0.95, (0, 0), 0⟩
      ⟨some [⟨(10, 10), (11, 11)⟩], some [(1, 0)]⟩).2
    ⟨some [⟨(10, 10), (11, 11)⟩], some [(1, 0)]⟩ (0, 0) 1000
    (by
      intro fs hfs p hp
      simp only [Option.some.injEq] at hfs
      subst hfs
      simp only [List.mem_singleton] at hp
      subst hp
      norm_num [flatGeo, rectContains])
    (by
      intro l hl a ha
      simp only [Option.some.injEq] at hl
      subst hl
      simp only [List.mem_singleton] at ha
      subst ha
      norm_num [flatGeo, l1DistMeters, NEAR_ASSET_METERS])

/-- C8: window pruning.  After every `decideSpecialCase` call the recent
window retains no entry older than the event timestamp minus 60000 ms; in
particular, after an event at `t = 0` followed by one at `t = 61000`, the
`t = 0` entry is gone from the window. -/
theorem window_pruning_invariant :
    (∀ (Poly : Type) (G : GeoLib Poly) (st : EngineState) (ev : EventInput)
        (ctx : SpecialCaseContext Poly) (r : RecentEntry),
        r ∈ (decideSpecialCase G st ev ctx).2.recent → ev.ts - 60000 ≤ r.ts) ∧
    (⟨"fire", (0, 0), 0⟩ : RecentEntry) ∉
      (decideSpecialCase flatGeo
        (decideSpecialCase flatGeo initSpecialCaseEngine ⟨"fire", 0.9, (0, 0), 0⟩
          ⟨none, none⟩).2
        ⟨"fire", 0.9, (0, 0), 61000⟩ ⟨none, none⟩).2.recent := by
  constructor
  · intro Poly G st ev ctx r hr
    rw [decideSpecialCase_recent] at hr
    unfold pushRecent at hr
    have hkeep := (List.mem_filter.mp hr).2
    simp only [decide_eq_true_eq] at hkeep
    exact hkeep
  · norm_num [decideSpecialCase, initSpecialCaseEngine, pushRecent, lowerString_fire,
      List.filter]

/-- C9: unconditional state mutation (non-idempotence).  Every
`decideSpecialCase` call appends the (lower-cased) event to the recent
window and rewrites the event's cell — count 1 when the cell was absent or
the gap exceeded 12000 ms, the previous count plus one otherwise — no
matter which decision comes back; hence a second call with the identical
event increments the cell count once more. -/
theorem state_mutation_unconditional (Poly : Type) (G : GeoLib Poly) (st : EngineState)
    (ev : EventInput) (ctx : SpecialCaseContext Poly) :
    (⟨lowerString ev.label, ev.coord, ev.ts⟩ : RecentEntry) ∈
      (decideSpecialCase G st ev ctx).2.recent ∧
    (st.lastByCell (cellKey (lowerString ev.label) ev.coord) = none →
      (decideSpecialCase G st ev ctx).2.lastByCell (cellKey (lowerString ev.label) ev.coord)
        = some ⟨1, ev.ts⟩) ∧
    (∀ p, st.lastByCell (cellKey (lowerString ev.label) ev.coord) = some p →
      12000 < ev.ts - p.lastTs →
      (decideSpecialCase G st ev ctx).2.lastByCell (cellKey (lowerString ev.label) ev.coord)
        = some ⟨1, ev.ts⟩) ∧
    (∀ p, st.lastByCell (cellKey (lowerString ev.label) ev.coord) = some p →
      ¬ 12000 < ev.ts - p.lastTs →
      (decideSpecialCase G st ev ctx).2.lastByCell (cellKey (lowerString ev.label) ev.coord)
        = some ⟨p.count + 1, ev.ts⟩) ∧
    (decideSpecialCase G (decideSpecialCase G st ev ctx).2 ev ctx).2.lastByCell
        (cellKey (lowerString ev.label) ev.coord)
      = some ⟨(updateCell (st.lastByCell (cellKey (lowerString ev.label) ev.coord)) ev.ts).count + 1,
          ev.ts⟩ := by
  refine ⟨?_, ?_, ?_, ?_, ?_⟩
  · rw [decideSpecialCase_recent]
    unfold pushRecent
    rw [List.mem_filter]
    refine ⟨List.mem_append_right _ (List.mem_singleton.mpr rfl), ?_⟩
    simp only [decide_eq_true_eq]
    linarith
  · intro h
    rw [decideSpecialCase_lastByCell]
    simp [h, updateCell_none]
  · intro p hp hgap
    rw [decideSpecialCase_lastByCell]
    simp [hp, updateCell_some, PERSIST_MAX_GAP_MS, hgap]
  · intro p hp hgap
    rw [decideSpecialCase_lastByCell]
    simp [hp, updateCell_some, PERSIST_MAX_GAP_MS, hgap]
  · simp only [decideSpecialCase_lastByCell]
    norm_num [updateCell_some, updateCell_lastTs, PERSIST_MAX_GAP_MS]

/-- C6: cluster detection.  Three "person" events with score 0.91 inside
one AOI, each within 100 meters of the third event's coordinate, within a
30-second span: on the third event `clusterHit` is true (three same-label
detections inside the trailing 30 seconds of the recent window, the
current event included), so `decideSpecialCase` surfaces it — whatever
persistence count the third event's own cell has reached. -/
theorem cluster_detection_surface (Poly : Type) (G : GeoLib Poly) (aoi : Poly)
    (c1 c2 c3 : Coord) (t1 t2 t3 : ℚ)
    (h12 : t1 ≤ t2) (h23 : t2 ≤ t3) (hspan : t3 - 30000 ≤ t1)
    (hin1 : G.pointInPolygon c1 aoi = true)
    (hin2 : G.pointInPolygon c2 aoi = true)
    (hin3 : G.pointInPolygon c3 aoi = true)
    (hd1 : G.distMeters c3 c1 ≤ 100) (hd2 : G.distMeters c3 c2 ≤ 100)
    (hd3 : G.distMeters c3 c3 ≤ 100) :
    clusterHitSig G
        (decideSpecialCase G
          (decideSpecialCase G
            (decideSpecialCase G initSpecialCaseEngine ⟨"person", 0.91, c1, t1⟩
              ⟨some [aoi], none⟩).2
            ⟨"person", 0.91, c2, t2⟩ ⟨some [aoi], none⟩).2
          ⟨"person", 0.91, c3, t3⟩ ⟨some [aoi], none⟩).2.recent
        "person" c3 t3 = true ∧
    (decideSpecialCase G
        (decideSpecialCase G
          (decideSpecialCase G initSpecialCaseEngine ⟨"person", 0.91, c1, t1⟩
            ⟨some [aoi], none⟩).2
          ⟨"person", 0.91, c2, t2⟩ ⟨some [aoi], none⟩).2
        ⟨"person", 0.91, c3, t3⟩ ⟨some [aoi], none⟩).1 = Decision.surface := by
  have ha1 : t1 - 60000 ≤ t1 := by linarith
  have ha2 : t2 ≤ t1 + 60000 := by linarith
  have ha3 : t2 - 60000 ≤ t2 := by linarith
  have ha4 : t3 ≤ t1 + 60000 := by linarith
  have ha5 : t3 ≤ t2 + 60000 := by linarith
  have ha6 : t3 - 60000 ≤ t3 := by linarith
  have hb1 : t3 ≤ t1 + 30000 := by linarith
  have hb2 : t3 ≤ t2 + 30000 := by linarith
  have hb3 : t3 - 30000 ≤ t3 := by linarith
  constructor <;>
    norm_num [decideSpecialCase, initSpecialCaseEngine, pushRecent, lowerString_person,
      List.filter, clusterHitSig, thrCluster, THR_person, THR_fire, insideAOISig,
      nearAssetSig, applyRules, updateCell_none, ha1, ha2, ha3, ha4, ha5, ha6,
      hspan, hb1, hb2, hb3, hd1, hd2, hd3, hin1, hin2, hin3]
  simp [show ¬ ("person" = "fire") from by decide]

/-- Witness for C6: AOI square around the origin, three person events 44.5
meters apart along the equator (distinct ~35 m grid cells), 1 second
apart. -/
theorem cluster_detection_surface_witness :
    clusterHitSig flatGeo
        (decideSpecialCase flatGeo
          (decideSpecialCase flatGeo
            (decideSpecialCase flatGeo initSpecialCaseEngine ⟨"person", 0.91, (0, 0), 0⟩
              ⟨some [⟨(-1, -1), (1, 1)⟩], none⟩).2
            ⟨"person", 0.91, (0.0004, 0), 1000⟩ ⟨some [⟨(-1, -1), (1, 1)⟩], none⟩).2
          ⟨"person", 0.91, (0.0008, 0), 2000⟩ ⟨some [⟨(-1, -1), (1, 1)⟩], none⟩).2.recent
        "person" (0.0008, 0) 2000 = true ∧
    (decideSpecialCase flatGeo
        (decideSpecialCase flatGeo
          (decideSpecialCase flatGeo initSpecialCaseEngine ⟨"person", 0.91, (0, 0), 0⟩
            ⟨some [⟨(-1, -1), (1, 1)⟩], none⟩).2
          ⟨"person", 0.91, (0.0004, 0), 1000⟩ ⟨some [⟨(-1, -1), (1, 1)⟩], none⟩).2
        ⟨"person", 0.91, (0.0008, 0), 2000⟩ ⟨some [⟨(-1, -1), (1, 1)⟩], none⟩).1
      = Decision.surface :=
  cluster_detection_surface RectPoly flatGeo ⟨(-1, -1), (1, 1)⟩ (0, 0) (0.0004, 0)
    (0.0008, 0) 0 1000 2000 (by norm_num) (by norm_num) (by norm_num)
    (by norm_num [flatGeo, rectContains]) (by norm_num [flatGeo, rectContains])
    (by norm_num [flatGeo, rectContains])
    (by norm_num [flatGeo, l1DistMeters, abs_of_nonneg])
    (by norm_num [flatGeo, l1DistMeters, abs_of_nonneg])
    (by norm_num [flatGeo, l1DistMeters, abs_of_nonneg])

/-- C1 counterexample: the claim as stated is false.  With one critical
asset at the event coordinate and a fresh engine, a fire event with score
0.86 hits the near-asset fallback and is surfaced, while the same event
with the higher score 0.90 enters the fire rule (persistence count only
1) and is merely recorded — a strictly less urgent outcome for a strictly
higher score. -/
theorem fire_monotonicity_counterexample :
    (0.86 : ℚ) < 0.90 ∧
    (decideSpecialCase flatGeo initSpecialCaseEngine ⟨"fire", 0.86, (0, 0), 0⟩
        ⟨none, some [(0, 0)]⟩).1 = Decision.surface ∧
    (decideSpecialCase flatGeo initSpecialCaseEngine ⟨"fire", 0.90, (0, 0), 0⟩
        ⟨none, some [(0, 0)]⟩).1 = Decision.record ∧
    urgency Decision.record < urgency Decision.surface := by
  refine ⟨by norm_num, ?_, ?_, by norm_num [urgency]⟩ <;>
    norm_num [decideSpecialCase, initSpecialCaseEngine, insideAOISig, nearAssetSig,
      clusterHitSig, thrCluster, updateCell_none, applyRules, THR_fire, THR_person,
      THR_chemical, lowerString_fire, NEAR_ASSET_METERS, flatGeo, l1DistMeters]

/-- C1 (amended): threshold monotonicity for fire holds away from critical
assets.  For a fixed engine state, context, coordinate and timestamp, if
the coordinate is not within 60 meters of any critical asset (the
`nearAsset` signal is false), then a higher-score fire event is never
decided less urgently than a lower-score one. -/
theorem fire_monotonicity_no_asset (Poly : Type) (G : GeoLib Poly) (st : EngineState)
    (ctx : SpecialCaseContext Poly) (c : Coord) (t : ℚ) (s1 s2 : ℚ)
    (hs : s1 < s2) (hna : nearAssetSig G ctx c = false) :
    urgency (decideSpecialCase G st ⟨"fire", s1, c, t⟩ ctx).1 ≤
      urgency (decideSpecialCase G st ⟨"fire", s2, c, t⟩ ctx).1 := by
  rw [decideSpecialCase_fst, decideSpecialCase_fst]
  simp only [lowerString_fire, hna]
  exact applyRules_fire_mono s1 s2 _ _ _ (le_of_lt hs)

/-- Witness for C1 (amended) at concrete scores 0.86 < 0.90 with no assets
configured. -/
theorem fire_monotonicity_no_asset_witness :
    urgency (decideSpecialCase flatGeo initSpecialCaseEngine ⟨"fire", 0.86, (0, 0), 0⟩
        ⟨none, none⟩).1 ≤
      urgency (decideSpecialCase flatGeo initSpecialCaseEngine ⟨"fire", 0.90, (0, 0), 0⟩
        ⟨none, none⟩).1 :=
  fire_monotonicity_no_asset RectPoly flatGeo initSpecialCaseEngine ⟨none, none⟩ (0, 0) 0
    0.86 0.90 (by norm_num) rfl

/-- C2 counterexample: an out-of-order event does NOT reset its cell's
count to 1.  After a fire event at `ts = 10000`, the same event at
`ts = 0` has a negative gap `0 - 10000`; the reset test
`gap > 12000` is false, so the count is incremented to 2 (and the stored
timestamp moves back to 0) rather than reset to 1. -/
theorem out_of_order_counterexample :
    ((0 : ℚ) - 10000 < 0) ∧
    (decideSpecialCase flatGeo
        (decideSpecialCase flatGeo initSpecialCaseEngine ⟨"fire", 0.9, (0, 0), 10000⟩
          ⟨none, none⟩).2
        ⟨"fire", 0.9, (0, 0), 0⟩ ⟨none, none⟩).2.lastByCell (cellKey "fire" (0, 0))
      = some ⟨2, 0⟩ ∧
    (decideSpecialCase flatGeo
        (decideSpecialCase flatGeo initSpecialCaseEngine ⟨"fire", 0.9, (0, 0), 10000⟩
          ⟨none, none⟩).2
        ⟨"fire", 0.9, (0, 0), 0⟩ ⟨none, none⟩).2.lastByCell (cellKey "fire" (0, 0))
      ≠ some ⟨1, 0⟩ := by
  refine ⟨by norm_num, ?_, ?_⟩ <;>
    norm_num [decideSpecialCase, initSpecialCaseEngine, lowerString_fire, updateCell_none,
      updateCell_some, PERSIST_MAX_GAP_MS]

/-- C2 (amended): out-of-order timestamps are not detected or rejected;
the persistence gap `timestamp - lastTimestamp` goes negative, which the
`gap > 12000` reset test treats as within-gap, so the cell's count is
incremented (not reset to 1) and its stored timestamp moves backwards to
the out-of-order event's timestamp. -/
theorem out_of_order_increments (Poly : Type) (G : GeoLib Poly) (st : EngineState)
    (ev : EventInput) (ctx : SpecialCaseContext Poly) (p : CellInfo)
    (hp : st.lastByCell (cellKey (lowerString ev.label) ev.coord) = some p)
    (hts : ev.ts < p.lastTs) :
    (decideSpecialCase G st ev ctx).2.lastByCell (cellKey (lowerString ev.label) ev.coord)
      = some ⟨p.count + 1, ev.ts⟩ := by
  rw [decideSpecialCase_lastByCell]
  have hgap : ¬ PERSIST_MAX_GAP_MS < ev.ts - p.lastTs := by
    rw [PERSIST_MAX_GAP_MS]; linarith
  simp [hp, updateCell_some, hgap]

/-- Witness for C2 (amended): the cell holds `{count 1, lastTs 10000}` and
the event arrives at `ts = 0`; the count becomes 2. -/
theorem out_of_order_increments_witness :
    (decideSpecialCase flatGeo
        (decideSpecialCase flatGeo initSpecialCaseEngine ⟨"fire", 0.9, (0, 0), 10000⟩
          ⟨none, none⟩).2
        ⟨"fire", 0.9, (0, 0), 0⟩ ⟨none, none⟩).2.lastByCell
      (cellKey (lowerString "fire") (0, 0)) = some ⟨1 + 1, 0⟩ :=
  out_of_order_increments RectPoly flatGeo
    (decideSpecialCase flatGeo initSpecialCaseEngine ⟨"fire", 0.9, (0, 0), 10000⟩
      ⟨none, none⟩).2
    ⟨"fire", 0.9, (0, 0), 0⟩ ⟨none, none⟩ ⟨1, 10000⟩
    (by norm_num [decideSpecialCase, initSpecialCaseEngine, lowerString_fire,
      updateCell_none])
    (by norm_num)

/-- C10 counterexample: a below-threshold event need not fall through to
`record`.  A fire event with score 0.86 — below the fire confidence
threshold 0.88 — near a critical asset is surfaced by the near-asset
fallback rule, not recorded. -/
theorem no_ignore_counterexample :
    (0.86 : ℚ) < THR_fire.conf ∧
    (decideSpecialCase flatGeo initSpecialCaseEngine ⟨"fire", 0.86, (0, 0), 0⟩
        ⟨none, some [(0, 0)]⟩).1 = Decision.surface ∧
    Decision.surface ≠ Decision.record := by
  refine ⟨by norm_num [THR_fire], ?_, by simp⟩
  norm_num [decideSpecialCase, initSpecialCaseEngine, insideAOISig, nearAssetSig,
    clusterHitSig, thrCluster, updateCell_none, applyRules, THR_fire, THR_person,
    THR_chemical, lowerString_fire, NEAR_ASSET_METERS, flatGeo, l1DistMeters]

/-- C10 (amended): `decideSpecialCase` always returns `record`, `surface`
or `auto-dispatch` and never `ignore`; and an event whose score is below
its recognized label's confidence threshold returns `record` provided its
coordinate is not within 60 meters of a critical asset (near an asset the
fallback rule can still surface a fire event with score in
[0.85, 0.88)). -/
theorem no_ignore_below_threshold (Poly : Type) (G : GeoLib Poly) (st : EngineState)
    (ev : EventInput) (ctx : SpecialCaseContext Poly) :
    ((decideSpecialCase G st ev ctx).1 = Decision.record ∨
      (decideSpecialCase G st ev ctx).1 = Decision.surface ∨
      (decideSpecialCase G st ev ctx).1 = Decision.autoDispatch) ∧
    (decideSpecialCase G st ev ctx).1 ≠ Decision.ignore ∧
    (∀ q, confOf (lowerString ev.label) = some q → ev.score < q →
      nearAssetSig G ctx ev.coord = false →
      (decideSpecialCase G st ev ctx).1 = Decision.record) := by
  refine ⟨?_, ?_, ?_⟩
  · rw [decideSpecialCase_fst]
    exact applyRules_mem _ _ _ _ _ _
  · rw [decideSpecialCase_fst]
    rcases applyRules_mem (lowerString ev.label) ev.score
      (updateCell (st.lastByCell (cellKey (lowerString ev.label) ev.coord)) ev.ts).count
      (insideAOISig G ctx ev.coord) (nearAssetSig G ctx ev.coord)
      (clusterHitSig G (pushRecent st.recent (lowerString ev.label) ev.coord ev.ts)
        (lowerString ev.label) ev.coord ev.ts) with h | h | h <;>
      simp [h]
  · intro q hq hlt hna
    rw [decideSpecialCase_fst]
    unfold confOf at hq
    split_ifs at hq with hl1 hl2 hl3
    · have hq' := Option.some.inj hq
      have hnotle : ¬ THR_fire.conf ≤ ev.score := by rw [hq']; exact not_le.mpr hlt
      rw [hl1]
      simp [applyRules, hna, hnotle]
    · have hq' := Option.some.inj hq
      have hnotle : ¬ THR_person.conf ≤ ev.score := by rw [hq']; exact not_le.mpr hlt
      rcases hl2 with hl | hl <;> rw [hl] <;> simp [applyRules, hna, hnotle]
    · have hq' := Option.some.inj hq
      have hnotle : ¬ THR_chemical.conf ≤ ev.score := by rw [hq']; exact not_le.mpr hlt
      rw [hl3]
      simp [applyRules, hna, hnotle]

end DroneSim
